import Mathlib

/-!
Shallow embedding of the `docker-wrapper` repository's command builder and
execution lifecycle (`DockerCompose.prototype._buildParams` and
`DockerCompose.prototype._execute`, present in `src/index.js` and in
`src/unnamed/part_000`), together with the existence checks of the daemon
facade (`src/lib/docker-handler.js`).

JavaScript values that flow through the argument builder are either scalar
strings or arrays of strings; an object is modelled as an association list
in iteration (insertion) order, and an optional parameter by `Option`
(`none` = absent / `null` / `undefined`).  JavaScript string truthiness is
non-emptiness; arrays are always truthy; objects are always truthy.
-/

namespace DockerCompose

/-- A JavaScript value stored in an options mapping or pushed into the
argument array: a scalar string, or an array of scalar strings (the form
`_buildParams` in `src/unnamed/part_000` documents for multi-valued flags,
e.g. `{ f: [a.yml, b.yml] }`). -/
inductive Value where
  | scalar (s : String)
  | arr (l : List String)
deriving DecidableEq, Repr

/-- An options mapping: flag name to value, in JavaScript key iteration
order. -/
abbrev Opts := List (String × Value)

/-- An environment mapping (`process.env` or the stored overlay `this.env`):
variable name to value, in key order. -/
abbrev Env := List (String × String)

/-- JavaScript truthiness of a `Value`: a string is truthy iff non-empty; an
array is always truthy (even `[]`). -/
def vTruthy : Value → Bool
  | .scalar s => !s.isEmpty
  | .arr _ => true

/-- The dash-prefixed flag token:
`(opt.length === 1 ? '-' : '--').concat(opt)`. -/
def flagToken (opt : String) : String :=
  (if opt.length = 1 then "-" else "--") ++ opt

/-- `DockerCompose.prototype._buildParams` of `src/unnamed/part_000`
(lines 16–34): for each key in order, if the value is an array, push the
flag token once per element followed by the element when truthy; otherwise
push the flag token followed by the value when truthy.  `!opts` (absent
mapping) yields `[]`. -/
def buildParams : Option Opts → List Value
  | none => []
  | some opts =>
      opts.flatMap fun p =>
        match p.2 with
        | .arr vals =>
            vals.flatMap fun val =>
              Value.scalar (flagToken p.1) ::
                (if val.isEmpty then [] else [Value.scalar val])
        | .scalar s =>
            Value.scalar (flagToken p.1) ::
              (if s.isEmpty then [] else [Value.scalar s])

/-- `DockerCompose.prototype._buildParams` of `src/index.js` (lines 14–24):
for each key in order push the flag token, then push the value itself
(`opts[opt]`, whatever it is — there is no array case) when it is truthy. -/
def buildParams_index : Option Opts → List Value
  | none => []
  | some opts =>
      opts.flatMap fun p =>
        Value.scalar (flagToken p.1) :: (if vTruthy p.2 then [p.2] else [])

/-- The `services` parameter of `_execute`: a single string or an array of
strings (`{string | Array}` in the JSDoc). -/
inductive Services where
  | single (s : String)
  | multi (l : List String)
deriving DecidableEq, Repr

/-- JavaScript truthiness of a `services` argument: a string is truthy iff
non-empty; an array is always truthy. -/
def svTruthy : Services → Bool
  | .single s => !s.isEmpty
  | .multi _ => true

/-- The positional tokens contributed by a truthy `services` argument: the
string pushed as one token, or the array concatenated element by element. -/
def svTokens : Services → List Value
  | .single s => [Value.scalar s]
  | .multi l => l.map Value.scalar

/-- One call of a subcommand operation, as it reaches `_execute`:
the subcommand name literal, and the optional `opts`, `services` and
`sub_opts` parameters of `_execute` (absent parameters are `none`). -/
structure Invocation where
  command : String
  opts : Option Opts
  services : Option Services
  sub_opts : Option String
deriving DecidableEq, Repr

/-- Instance state of the wrapper: `this.opts` (primary options, set by
`putInitParams`) and `this.env` (environment overlay, set by `putEnv`).
`none` models the unset / `null` / falsy state tested by
`if (!this.opts || !this.env)`. -/
structure ComposeState where
  opts : Option Opts
  env : Option Env
deriving Repr

/-- Argument-vector assembly inside `_execute` (both files, identically):
`args = this._buildParams(this.opts); args.push(command);` then the three
truthiness-guarded appends for `opts`, `services` and `sub_opts`. -/
def executeArgs (P : Opts) (command : String) (opts : Option Opts)
    (services : Option Services) (sub_opts : Option String) : List Value :=
  let args := buildParams (some P)
  let args := args ++ [Value.scalar command]
  let args :=
    match opts with
    | some o => args ++ buildParams (some o)
    | none => args
  let args :=
    match services with
    | some sv => if svTruthy sv then args ++ svTokens sv else args
    | none => args
  match sub_opts with
  | some x => if x.isEmpty then args else args ++ [Value.scalar x]
  | none => args

/-- JavaScript object assignment `e[k] = v` on an environment mapping:
overwrite the binding of `k` in place if present, otherwise append it. -/
def setVar : Env → String → String → Env
  | [], k, v => [(k, v)]
  | (k', v') :: rest, k, v =>
      if k' = k then (k, v) :: rest else (k', v') :: setVar rest k v

/-- The loop `for (let item in this.env) env[item] = this.env[item]`:
the overlay's entries assigned one after the other into the environment. -/
def applyOverlay (e overlay : Env) : Env :=
  overlay.foldl (fun acc p => setVar acc p.1 p.2) e

/-- Settled outcome of the promise returned by `_execute`. -/
inductive ExecOutcome where
  | ok (stdout : String)
  | err (msg : String)
deriving DecidableEq, Repr

/-- The `close` handler of `_execute`:
`if (code !== 0) reject(new Error("Command exited: " + code + "\n" + stderr))
else resolve(stdout)`.  (A signal-killed child reports `code = null`; only
numeric exit statuses are modelled.) -/
def closeOutcome (code : Int) (stdout stderr : String) : ExecOutcome :=
  if code ≠ 0 then
    ExecOutcome.err ("Command exited: " ++ toString code ++ "\n" ++ stderr)
  else
    ExecOutcome.ok stdout

/-- Everything one completed `_execute` run produces once its promise has
settled: the argument vector handed to `spawn`, the environment handed to
`spawn`, the wrapper's own `process.env` after the call, the settled
outcome, and the instance state after the `.finally` handler ran. -/
structure ExecRun where
  args : List Value
  spawnEnv : Env
  processEnvAfter : Env
  outcome : ExecOutcome
  finalState : ComposeState
deriving Repr

/-- The usage-error message thrown synchronously by `_execute`. -/
def usageMsg : String := "Primary options or environment properties unset"

/-- `DockerCompose.prototype._execute` (identical in `src/index.js` lines
35–82 and `src/unnamed/part_000` lines 45–92), as a function of the instance
state, the current `process.env`, the invocation, and the child's exit code
and accumulated stream buffers.  `.error` is the synchronous `throw` — no
process is spawned on that path and the state is untouched.  On the spawn
path, `let env = process.env` ALIASES the live environment and the overlay
loop mutates it in place, so `spawnEnv` and `processEnvAfter` are the same
merged mapping; the `.finally` handler then sets `this.env = null` whatever
the outcome was. -/
def execute (st : ComposeState) (procEnv : Env) (inv : Invocation)
    (code : Int) (stdout stderr : String) : Except String ExecRun :=
  match st.opts, st.env with
  | some P, some ov =>
      let args := executeArgs P inv.command inv.opts inv.services inv.sub_opts
      let env := applyOverlay procEnv ov
      Except.ok
        { args := args
          spawnEnv := env
          processEnvAfter := env
          outcome := closeOutcome code stdout stderr
          finalState := { opts := some P, env := none } }
  | _, _ => Except.error usageMsg

/-! The subcommand surface (`src/index.js` lines 104–166, identically in
`src/unnamed/part_000` lines 121–183): each operation forwards to
`_execute` with its literal subcommand name and its declared parameters. -/

def up (opts : Option Opts) : Invocation := ⟨"up", opts, none, none⟩

def down (opts : Option Opts) : Invocation := ⟨"down", opts, none, none⟩

def ps (opts : Option Opts) : Invocation := ⟨"ps", opts, none, none⟩

def start (opts : Option Opts) (services : Option Services) : Invocation :=
  ⟨"start", opts, services, none⟩

def stop (opts : Option Opts) (services : Option Services) : Invocation :=
  ⟨"stop", opts, services, none⟩

def restart (opts : Option Opts) (services : Option Services) : Invocation :=
  ⟨"restart", opts, services, none⟩

def kill (opts : Option Opts) (services : Option Services) : Invocation :=
  ⟨"kill", opts, services, none⟩

def pull (opts : Option Opts) (services : Option Services) : Invocation :=
  ⟨"pull", opts, services, none⟩

def create (opts : Option Opts) (services : Option Services) : Invocation :=
  ⟨"create", opts, services, none⟩

def version (opts : Option Opts) : Invocation := ⟨"version", opts, none, none⟩

def pause (opts : Option Opts) (services : Option Services) : Invocation :=
  ⟨"pause", opts, services, none⟩

def unpause (opts : Option Opts) (services : Option Services) : Invocation :=
  ⟨"unpause", opts, services, none⟩

def scale (opts : Option Opts) (services : Option Services) : Invocation :=
  ⟨"scale", opts, services, none⟩

def rm (opts : Option Opts) (services : Option Services) : Invocation :=
  ⟨"rm", opts, services, none⟩

def port (opts : Option Opts) (service : Option Services)
    (private_port : Option String) : Invocation :=
  ⟨"port", opts, service, private_port⟩

def run (opts : Option Opts) (service : Option Services)
    (command : Option String) : Invocation :=
  ⟨"run", opts, service, command⟩

end DockerCompose

namespace DockerHandler

/-- Settled state of a (bluebird) promise: resolved with a value or rejected
with an error. -/
inductive POutcome (ε α : Type) where
  | resolved (a : α)
  | rejected (e : ε)
deriving DecidableEq, Repr

/-- `.then(handler)` with a handler that returns a plain value: maps a
resolution, passes a rejection through. -/
def pThen {ε α β : Type} (p : POutcome ε α) (f : α → β) : POutcome ε β :=
  match p with
  | .resolved a => .resolved (f a)
  | .rejected e => .rejected e

/-- `.catch(handler)` with a handler that returns a plain value: turns a
rejection into a resolution, passes a resolution through. -/
def pCatch {ε α : Type} (p : POutcome ε α) (f : ε → α) : POutcome ε α :=
  match p with
  | .resolved a => .resolved a
  | .rejected e => .resolved (f e)

/-- `DockerHandler.prototype.inspectNetwork` (docker-handler.js lines
66–80), as a function of the outcome the dockerode callback reports:
`(err, data)` with truthy `err` rejects with `err`, otherwise resolves with
`data`. -/
def inspectNetwork {ε δ : Type} (cb : Except ε δ) : POutcome ε δ :=
  match cb with
  | .error e => .rejected e
  | .ok d => .resolved d

/-- `DockerHandler.prototype.inspectImage` (docker-handler.js lines 24–37),
same callback-to-promise translation. -/
def inspectImage {ε δ : Type} (cb : Except ε δ) : POutcome ε δ :=
  match cb with
  | .error e => .rejected e
  | .ok d => .resolved d

/-- `DockerHandler.prototype.inspectContainer` (docker-handler.js lines
45–58), same callback-to-promise translation. -/
def inspectContainer {ε δ : Type} (cb : Except ε δ) : POutcome ε δ :=
  match cb with
  | .error e => .rejected e
  | .ok d => .resolved d

/-- `DockerHandler.prototype.doesNetworkExist` (lines 346–354):
`this.inspectNetwork(id).then(_ => true).catch(err => { log; return false })`. -/
def doesNetworkExist {ε δ : Type} (cb : Except ε δ) : POutcome ε Bool :=
  pCatch (pThen (inspectNetwork cb) (fun _ => true)) (fun _ => false)

/-- `DockerHandler.prototype.doesImageExist` (lines 361–369). -/
def doesImageExist {ε δ : Type} (cb : Except ε δ) : POutcome ε Bool :=
  pCatch (pThen (inspectImage cb) (fun _ => true)) (fun _ => false)

/-- `DockerHandler.prototype.doesContainerExist` (lines 376–384). -/
def doesContainerExist {ε δ : Type} (cb : Except ε δ) : POutcome ε Bool :=
  pCatch (pThen (inspectContainer cb) (fun _ => true)) (fun _ => false)

end DockerHandler

/-- `hay` contains `needle` as a contiguous substring. -/
def strContains (hay needle : String) : Prop :=
  ∃ p q, hay = p ++ needle ++ q

open DockerCompose DockerHandler

/-- C1, counterexample: the claim's assembly rule fails when the targets
argument is provided as the empty single string.  The code's truthiness
guard `if (!!services)` drops it, while the claim demands it be appended as
one token: at `P = {}`, `c = "start"`, `s = ""`, the actual vector is
`["start"]`, not the claimed `["start", ""]`. -/
theorem c1_counterexample :
    executeArgs [] "start" none (some (Services.single "")) none ≠
      buildParams (some ([] : Opts)) ++ [Value.scalar "start"] ++
        [Value.scalar ""] := by decide

/-- C1 (amended): for every invocation of `_execute`, the argument vector is
exactly the Argument Builder output for the stored Primary Options `P`, then
the single token `c`, then (if `o` is provided) the Argument Builder output
for `o`, then (if `s` is provided and truthy, i.e. a list or a non-empty
single string) `s` as one token when it is a single string or its elements
in order when it is a list, then (if `x` is provided and non-empty) `x`
appended as one raw token that is not flag-formatted. -/
theorem c1_assembly_order (P : Opts) (c : String) (o : Option Opts)
    (s : Option Services) (x : Option String) :
    executeArgs P c o s x =
      buildParams (some P) ++ [Value.scalar c]
        ++ (match o with
            | some o' => buildParams (some o')
            | none => [])
        ++ (match s with
            | some sv => if svTruthy sv then svTokens sv else []
            | none => [])
        ++ (match x with
            | some t => if t.isEmpty then [] else [Value.scalar t]
            | none => []) := by
  rcases o with _ | o <;> rcases s with _ | sv <;> rcases x with _ | t <;>
    simp only [executeArgs, List.append_assoc, List.append_nil] <;>
    split_ifs <;> simp [List.append_assoc]

/-- C2: the `close` handler of `_execute` resolves with the accumulated
stdout buffer on exit status zero, and on a non-zero status rejects with an
error whose message contains the exit status and the accumulated stderr
buffer. -/
theorem c2_exit_outcome (code : Int) (stdout stderr : String) :
    (code = 0 → closeOutcome code stdout stderr = ExecOutcome.ok stdout) ∧
    (code ≠ 0 → ∃ msg, closeOutcome code stdout stderr = ExecOutcome.err msg ∧
      strContains msg (toString code) ∧ strContains msg stderr) := by
  constructor
  · intro h
    simp [closeOutcome, h]
  · intro h
    refine ⟨"Command exited: " ++ toString code ++ "\n" ++ stderr,
      by simp [closeOutcome, h], ⟨"Command exited: ", "\n" ++ stderr, ?_⟩,
      ⟨"Command exited: " ++ toString code ++ "\n", "", ?_⟩⟩
    · simp [String.append_assoc]
    · simp [String.append_assoc]

/-- Witness for C2 at concrete inputs: exit 0 resolves with stdout; exit 1
with stderr `"service not found"` rejects with a message containing both. -/
theorem c2_exit_outcome_witness :
    closeOutcome 0 "done" "x" = ExecOutcome.ok "done" ∧
    ∃ msg, closeOutcome 1 "" "service not found" = ExecOutcome.err msg ∧
      strContains msg (toString (1 : Int)) ∧ strContains msg "service not found" :=
  ⟨(c2_exit_outcome 0 "done" "x").1 rfl,
   (c2_exit_outcome 1 "" "service not found").2 (by decide)⟩

/-- C3: when the stored Primary Options or the stored Environment Overlay is
unset at call time, every one of the sixteen subcommand operations fails
synchronously with the usage error (the `Except.error` branch of `execute`,
which carries no `ExecRun` — no process is spawned and no argument vector or
environment is ever built). -/
theorem c3_usage_guard (st : ComposeState) (procEnv : Env) (code : Int)
    (stdout stderr : String) (h : st.opts = none ∨ st.env = none) :
    (∀ o, execute st procEnv (up o) code stdout stderr = Except.error usageMsg) ∧
    (∀ o, execute st procEnv (down o) code stdout stderr = Except.error usageMsg) ∧
    (∀ o, execute st procEnv (ps o) code stdout stderr = Except.error usageMsg) ∧
    (∀ o s, execute st procEnv (start o s) code stdout stderr = Except.error usageMsg) ∧
    (∀ o s, execute st procEnv (stop o s) code stdout stderr = Except.error usageMsg) ∧
    (∀ o s, execute st procEnv (restart o s) code stdout stderr = Except.error usageMsg) ∧
    (∀ o s, execute st procEnv (kill o s) code stdout stderr = Except.error usageMsg) ∧
    (∀ o s, execute st procEnv (pull o s) code stdout stderr = Except.error usageMsg) ∧
    (∀ o s, execute st procEnv (create o s) code stdout stderr = Except.error usageMsg) ∧
    (∀ o, execute st procEnv (version o) code stdout stderr = Except.error usageMsg) ∧
    (∀ o s, execute st procEnv (pause o s) code stdout stderr = Except.error usageMsg) ∧
    (∀ o s, execute st procEnv (unpause o s) code stdout stderr = Except.error usageMsg) ∧
    (∀ o s, execute st procEnv (scale o s) code stdout stderr = Except.error usageMsg) ∧
    (∀ o s, execute st procEnv (rm o s) code stdout stderr = Except.error usageMsg) ∧
    (∀ o s x, execute st procEnv (port o s x) code stdout stderr = Except.error usageMsg) ∧
    (∀ o s x, execute st procEnv (run o s x) code stdout stderr = Except.error usageMsg) := by
  have key : ∀ inv, execute st procEnv inv code stdout stderr = Except.error usageMsg := by
    intro inv
    rcases st with ⟨so, se⟩
    rcases h with h | h
    · cases h
      cases se <;> rfl
    · cases h
      cases so <;> rfl
  exact ⟨fun _ => key _, fun _ => key _, fun _ => key _, fun _ _ => key _,
    fun _ _ => key _, fun _ _ => key _, fun _ _ => key _, fun _ _ => key _,
    fun _ _ => key _, fun _ => key _, fun _ _ => key _, fun _ _ => key _,
    fun _ _ => key _, fun _ _ => key _, fun _ _ _ => key _, fun _ _ _ => key _⟩

/-- Witness for C3: with Primary Options unset (and an overlay set), `up`
fails with the usage error. -/
theorem c3_usage_guard_witness :
    execute ⟨none, some []⟩ [] (up none) 0 "" "" = Except.error usageMsg :=
  (c3_usage_guard ⟨none, some []⟩ [] 0 "" "" (Or.inl rfl)).1 none

/-- C4: every invocation that passes the guard produces a completed run
(whatever the exit code, so on the resolved and the rejected path alike)
whose final instance state has the Environment Overlay cleared and the
Primary Options exactly as they were before the call. -/
theorem c4_overlay_cleared (P : Opts) (ov : Env) (st : ComposeState)
    (procEnv : Env) (inv : Invocation) (code : Int) (stdout stderr : String)
    (hP : st.opts = some P) (hE : st.env = some ov) :
    ∃ r : ExecRun, execute st procEnv inv code stdout stderr = Except.ok r ∧
      r.finalState.env = none ∧ r.finalState.opts = st.opts := by
  rcases st with ⟨so, se⟩
  cases hP
  cases hE
  exact ⟨_, rfl, rfl, rfl⟩

/-- Witness for C4: a concrete failing run (`exit 1`) still ends with the
overlay cleared and the primary options intact. -/
theorem c4_overlay_cleared_witness :
    ∃ r : ExecRun,
      execute ⟨some [("p", Value.scalar "proj")], some [("A", "1")]⟩ []
          (up none) 1 "" "boom" = Except.ok r ∧
      r.finalState.env = none ∧
      r.finalState.opts = some [("p", Value.scalar "proj")] :=
  c4_overlay_cleared [("p", Value.scalar "proj")] [("A", "1")]
    ⟨some [("p", Value.scalar "proj")], some [("A", "1")]⟩ [] (up none) 1 ""
    "boom" rfl rfl

/-- C5: for a key bound to a list of `N` elements, the Argument Builder's
output decomposes around that key into the output for the preceding keys,
then one flag token per list element — each immediately followed by the
element's value token exactly when that element is truthy (non-empty) — in
list order, then the output for the following keys. -/
theorem c5_list_flag (pre post : Opts) (k : String) (vals : List String) :
    buildParams (some (pre ++ (k, Value.arr vals) :: post)) =
      buildParams (some pre)
        ++ vals.flatMap (fun v => Value.scalar (flagToken k) ::
              (if v.isEmpty then [] else [Value.scalar v]))
        ++ buildParams (some post) := by
  simp [buildParams, List.flatMap_append, List.flatMap_cons, List.append_assoc]

/-- C6: for an all-scalar options mapping, the Argument Builder's output
length is twice the number of keys with a truthy (non-empty) value plus the
number of keys with a falsy (empty) value. -/
theorem c6_scalar_length (opts : List (String × String)) :
    (buildParams (some (opts.map fun p => (p.1, Value.scalar p.2)))).length =
      2 * ((opts.filter fun p => !p.2.isEmpty).length)
        + ((opts.filter fun p => p.2.isEmpty).length) := by
  induction opts with
  | nil => rfl
  | cons hd tl ih =>
      cases h : hd.2.isEmpty <;>
        simp [buildParams, List.filter_cons, h] at ih ⊢ <;> omega

/-- C7, counterexample: on `{f: ["a.yml","b.yml"], p: "proj"}` the builder
does NOT produce the claimed `["-f","a.yml","-f","b.yml","--p","proj"]` —
the one-character key `p` gets a single dash, not the claimed `--p`. -/
theorem c7_counterexample :
    buildParams (some [("f", Value.arr ["a.yml", "b.yml"]),
        ("p", Value.scalar "proj")]) ≠
      [Value.scalar "-f", Value.scalar "a.yml", Value.scalar "-f",
       Value.scalar "b.yml", Value.scalar "--p", Value.scalar "proj"] := by
  decide

/-- C7 (amended): on `{f: ["a.yml","b.yml"], p: "proj"}` the builder's
output is exactly `["-f","a.yml","-f","b.yml","-p","proj"]` (one dash for
the single-character key `p`, per the one-character rule). -/
theorem c7_example_output :
    buildParams (some [("f", Value.arr ["a.yml", "b.yml"]),
        ("p", Value.scalar "proj")]) =
      [Value.scalar "-f", Value.scalar "a.yml", Value.scalar "-f",
       Value.scalar "b.yml", Value.scalar "-p", Value.scalar "proj"] := by
  decide

/-- C8, code evaluated at the failing input: with `process.env =
{PATH:"/usr", HOME:"/root"}` and overlay `{PATH:"/x", A:"1"}`, the spawned
process does get the merged environment with the overlay winning on the
collision — but because `let env = process.env` aliases the live environment
and the loop mutates it in place, the wrapper's own environment after the
call is that same merged mapping, not the original one, contradicting the
claim that the merge is scoped to the single invocation. -/
theorem c8_env_aliasing :
    ∃ r : ExecRun,
      execute ⟨some [("p", Value.scalar "proj")],
          some [("PATH", "/x"), ("A", "1")]⟩
          [("PATH", "/usr"), ("HOME", "/root")] (up none) 0 "" "" =
        Except.ok r ∧
      r.spawnEnv = [("PATH", "/x"), ("HOME", "/root"), ("A", "1")] ∧
      r.processEnvAfter = r.spawnEnv ∧
      r.processEnvAfter ≠ [("PATH", "/usr"), ("HOME", "/root")] :=
  ⟨_, rfl, by decide, rfl, by decide⟩

/-- C9: on every all-scalar options mapping (the absent mapping included),
the `_buildParams` of `src/index.js` and the `_buildParams` of
`src/unnamed/part_000` produce identical output token sequences. -/
theorem c9_scalar_equivalence (opts : Option (List (String × String))) :
    buildParams_index (opts.map fun l => l.map fun p => (p.1, Value.scalar p.2)) =
      buildParams (opts.map fun l => l.map fun p => (p.1, Value.scalar p.2)) := by
  cases opts with
  | none => rfl
  | some l =>
      induction l with
      | nil => rfl
      | cons hd tl ih =>
          cases h : hd.2.isEmpty <;>
            simp [buildParams, buildParams_index, vTruthy, h] at ih ⊢ <;>
            exact ih

/-- C10: each of the three existence checks always settles by resolving with
a boolean and never rejects; it resolves with `true` exactly when the
corresponding inspect callback reports success, and with `false` whenever it
reports any error. -/
theorem c10_existence_checks {ε δ : Type} (cb : Except ε δ) :
    ((∃ b, doesNetworkExist cb = POutcome.resolved b) ∧
      (doesNetworkExist cb = POutcome.resolved true ↔ ∃ d, cb = Except.ok d) ∧
      (∀ e, cb = Except.error e → doesNetworkExist cb = POutcome.resolved false)) ∧
    ((∃ b, doesImageExist cb = POutcome.resolved b) ∧
      (doesImageExist cb = POutcome.resolved true ↔ ∃ d, cb = Except.ok d) ∧
      (∀ e, cb = Except.error e → doesImageExist cb = POutcome.resolved false)) ∧
    ((∃ b, doesContainerExist cb = POutcome.resolved b) ∧
      (doesContainerExist cb = POutcome.resolved true ↔ ∃ d, cb = Except.ok d) ∧
      (∀ e, cb = Except.error e → doesContainerExist cb = POutcome.resolved false)) := by
  cases cb with
  | ok d =>
      exact ⟨⟨⟨true, rfl⟩, ⟨fun _ => ⟨d, rfl⟩, fun _ => rfl⟩, fun e h => nomatch h⟩,
        ⟨⟨true, rfl⟩, ⟨fun _ => ⟨d, rfl⟩, fun _ => rfl⟩, fun e h => nomatch h⟩,
        ⟨⟨true, rfl⟩, ⟨fun _ => ⟨d, rfl⟩, fun _ => rfl⟩, fun e h => nomatch h⟩⟩
  | error e =>
      refine ⟨⟨⟨false, rfl⟩, ⟨fun h => ?_, fun h => ?_⟩, fun _ _ => rfl⟩,
        ⟨⟨false, rfl⟩, ⟨fun h => ?_, fun h => ?_⟩, fun _ _ => rfl⟩,
        ⟨⟨false, rfl⟩, ⟨fun h => ?_, fun h => ?_⟩, fun _ _ => rfl⟩⟩ <;>
        simp [doesNetworkExist, doesImageExist, doesContainerExist,
          inspectNetwork, inspectImage, inspectContainer, pThen, pCatch] at h

/-- Witness for C10 at concrete callbacks: a successful network inspection
resolves `true`; a failed container inspection resolves `false`. -/
theorem c10_existence_checks_witness :
    doesNetworkExist (Except.ok "data" : Except String String) =
        POutcome.resolved true ∧
    doesContainerExist (Except.error "no such container" : Except String String) =
        POutcome.resolved false :=
  ⟨((c10_existence_checks (Except.ok "data")).1.2.1).mpr ⟨"data", rfl⟩,
   (c10_existence_checks
     (Except.error "no such container" : Except String String)).2.2.2.2
     "no such container" rfl⟩
